import Mathlib

set_option maxHeartbeats 1000000

/- Shallow embedding of the flow-tracking and trust-scoring core of the
   IDS/IPS framework: `src/scoring/trust_score.py` and
   `src/capture/packet_capture.py`.  Python floats are modelled as `ℚ`,
   Python ints as `ℕ`, Python dicts as insertion-ordered association
   lists, and the fallible constructor as `Except`.  Wall-clock reads
   (`time.time()`) are replaced by explicit timestamp parameters. -/

/-- Python-dict lookup on an insertion-ordered association list. -/
def dictGet {α : Type} : List (String × α) → String → Option α
  | [], _ => none
  | (k, v) :: rest, key => if k = key then some v else dictGet rest key

/-- Python-dict write: overwrite in place if the key exists, else append
    (Python dicts preserve insertion order). -/
def dictSet {α : Type} : List (String × α) → String → α → List (String × α)
  | [], key, v => [(key, v)]
  | (k, w) :: rest, key, v =>
      if k = key then (k, v) :: rest else (k, w) :: dictSet rest key v

/-- Embeds `DeviceScore` dataclass from `trust_score.py` (the `last_updated`
    wall-clock field is elided; no claim concerns it). -/
structure DeviceScore where
  device_ip : String
  trust_score : ℚ := 100
  behavioral_score : ℚ := 100
  vulnerability_score : ℚ := 100
  reputation_score : ℚ := 100
  anomaly_count : ℕ := 0
  vulnerable_ports : List ℕ := []
  is_whitelisted : Bool := false
  is_blacklisted : Bool := false
deriving DecidableEq

/-- Embeds `TrustScoreManager` state: the three (already normalized) component
    weights, the decay rate and the device map. -/
structure TrustScoreManager where
  behavioral_weight : ℚ
  vulnerability_weight : ℚ
  reputation_weight : ℚ
  decay_rate : ℚ
  devices : List (String × DeviceScore)
deriving DecidableEq

/-- Embeds `TrustScoreManager.__init__`: stores the weights divided by their sum.
    When the sum is zero the Python float division raises
    `ZeroDivisionError`, modelled as `Except.error`.  `decay_rate` is
    stored without any validation, exactly as in the source. -/
def mkTrustScoreManager (behavioral_weight vulnerability_weight reputation_weight
    decay_rate : ℚ) : Except String TrustScoreManager :=
  let total := behavioral_weight + vulnerability_weight + reputation_weight
  if total = 0 then
    Except.error "ZeroDivisionError: float division by zero"
  else
    Except.ok
      { behavioral_weight := behavioral_weight / total
        vulnerability_weight := vulnerability_weight / total
        reputation_weight := reputation_weight / total
        decay_rate := decay_rate
        devices := [] }

/-- Embeds `get_or_create_device`: the record looked up, or a fresh full-trust
    record for `ip` (every mutating operation writes the record back, so
    the map write is performed at the call sites below). -/
def getOrCreateDevice (M : TrustScoreManager) (ip : String) : DeviceScore :=
  (dictGet M.devices ip).getD { device_ip := ip }

/-- Embeds `_update_overall_score`: recompute the composite trust score from the
    three components with the manager's weights. -/
def updateOverallScore (M : TrustScoreManager) (d : DeviceScore) : DeviceScore :=
  { d with trust_score :=
      M.behavioral_weight * d.behavioral_score +
      M.vulnerability_weight * d.vulnerability_score +
      M.reputation_weight * d.reputation_score }

/-- Embeds `update_behavioral_score`. -/
def updateBehavioralScore (M : TrustScoreManager) (ip : String)
    (anomaly_score : ℚ) : TrustScoreManager :=
  let d := getOrCreateDevice M ip
  let score_penalty := min (anomaly_score * 100) 50
  let d := { d with
      behavioral_score := max 0 (d.behavioral_score - score_penalty)
      anomaly_count := d.anomaly_count + 1 }
  { M with devices := dictSet M.devices ip (updateOverallScore M d) }

/-- Embeds `update_vulnerability_score`. -/
def updateVulnerabilityScore (M : TrustScoreManager) (ip : String)
    (vulnerable_ports : List ℕ) : TrustScoreManager :=
  let d := getOrCreateDevice M ip
  let total_penalty := min ((vulnerable_ports.length : ℚ) * 15) 80
  let d := { d with
      vulnerable_ports := vulnerable_ports
      vulnerability_score := max 20 (100 - total_penalty) }
  { M with devices := dictSet M.devices ip (updateOverallScore M d) }

/-- Embeds `update_reputation_score`. -/
def updateReputationScore (M : TrustScoreManager) (ip : String)
    (is_malicious : Bool) : TrustScoreManager :=
  let d := getOrCreateDevice M ip
  let d :=
    if is_malicious then
      { d with reputation_score := max 0 (d.reputation_score - 50) }
    else
      { d with reputation_score := min 100 (d.reputation_score + 5) }
  { M with devices := dictSet M.devices ip (updateOverallScore M d) }

/-- One component's recovery step inside `apply_score_decay`: untouched
    when the component is not below 100. -/
def decayComponent (decay_factor c : ℚ) : ℚ :=
  if c < 100 then min 100 (c + (100 - c) * (1 - decay_factor)) else c

/-- Embeds `apply_score_decay` with the already-computed
    `decay_factor = decay_rate ** hours_elapsed`: behavioral and
    reputation recover independently, vulnerability is untouched, and the
    composite is recomputed for every device. -/
def applyScoreDecayFactor (M : TrustScoreManager) (decay_factor : ℚ) :
    TrustScoreManager :=
  { M with devices := M.devices.map fun kv =>
      (kv.1, updateOverallScore M
        { kv.2 with
            behavioral_score := decayComponent decay_factor kv.2.behavioral_score
            reputation_score := decayComponent decay_factor kv.2.reputation_score }) }

/-- Embeds `apply_score_decay(hours_elapsed)` for a whole number of hours:
    `decay_factor = decay_rate ** hours_elapsed` (the source accepts float
    hours; the embedding takes the exponent as a natural number so the
    power is exact). -/
def applyScoreDecay (M : TrustScoreManager) (hours_elapsed : ℕ) :
    TrustScoreManager :=
  applyScoreDecayFactor M (M.decay_rate ^ hours_elapsed)

/-- Embeds `whitelist_device`. -/
def whitelistDevice (M : TrustScoreManager) (ip : String) : TrustScoreManager :=
  let d := getOrCreateDevice M ip
  let d := { d with
      is_whitelisted := true
      is_blacklisted := false
      behavioral_score := (100 : ℚ)
      vulnerability_score := (100 : ℚ)
      reputation_score := (100 : ℚ) }
  { M with devices := dictSet M.devices ip (updateOverallScore M d) }

/-- Embeds `blacklist_device`. -/
def blacklistDevice (M : TrustScoreManager) (ip : String) : TrustScoreManager :=
  let d := getOrCreateDevice M ip
  let d := { d with
      is_blacklisted := true
      is_whitelisted := false
      behavioral_score := (0 : ℚ)
      vulnerability_score := (0 : ℚ)
      reputation_score := (0 : ℚ) }
  { M with devices := dictSet M.devices ip (updateOverallScore M d) }

/-- One mutating operation of the Trust Score Engine. -/
inductive TrustOp where
  | behavioral (ip : String) (anomaly_score : ℚ)
  | vulnerability (ip : String) (ports : List ℕ)
  | reputation (ip : String) (is_malicious : Bool)
  | decay (hours : ℕ)
  | whitelist (ip : String)
  | blacklist (ip : String)
deriving DecidableEq

/-- Dispatch one operation. -/
def runOp (M : TrustScoreManager) : TrustOp → TrustScoreManager
  | .behavioral ip a => updateBehavioralScore M ip a
  | .vulnerability ip ps => updateVulnerabilityScore M ip ps
  | .reputation ip b => updateReputationScore M ip b
  | .decay h => applyScoreDecay M h
  | .whitelist ip => whitelistDevice M ip
  | .blacklist ip => blacklistDevice M ip

/-- Run a sequence of mutating operations. -/
def runOps (M : TrustScoreManager) (ops : List TrustOp) : TrustScoreManager :=
  ops.foldl runOp M

/-- Embeds `NetworkFlow` from `packet_capture.py`. -/
structure NetworkFlow where
  src_ip : String
  dst_ip : String
  src_port : ℕ
  dst_port : ℕ
  protocol : String
  start_time : ℚ
  last_packet_time : ℚ
  fwd_packets : ℕ := 0
  bwd_packets : ℕ := 0
  fwd_bytes : ℕ := 0
  bwd_bytes : ℕ := 0
  packet_times : List ℚ := []
deriving DecidableEq

/-- Embeds `NetworkFlow.__init__` at creation time `now`. -/
def mkNetworkFlow (src_ip dst_ip : String) (src_port dst_port : ℕ)
    (protocol : String) (now : ℚ) : NetworkFlow :=
  { src_ip := src_ip, dst_ip := dst_ip, src_port := src_port
    dst_port := dst_port, protocol := protocol
    start_time := now, last_packet_time := now }

/-- Embeds `NetworkFlow.update`. -/
def NetworkFlow.update (f : NetworkFlow) (packet_size : ℕ) (is_forward : Bool)
    (timestamp : ℚ) : NetworkFlow :=
  let f :=
    if is_forward then
      { f with fwd_packets := f.fwd_packets + 1
               fwd_bytes := f.fwd_bytes + packet_size }
    else
      { f with bwd_packets := f.bwd_packets + 1
               bwd_bytes := f.bwd_bytes + packet_size }
  { f with packet_times := f.packet_times ++ [timestamp]
           last_packet_time := timestamp }

/-- Embeds `duration` property. -/
def NetworkFlow.duration (f : NetworkFlow) : ℚ :=
  f.last_packet_time - f.start_time

/-- Embeds `total_packets` property. -/
def NetworkFlow.totalPackets (f : NetworkFlow) : ℕ :=
  f.fwd_packets + f.bwd_packets

/-- Embeds `total_bytes` property. -/
def NetworkFlow.totalBytes (f : NetworkFlow) : ℕ :=
  f.fwd_bytes + f.bwd_bytes

/-- The list comprehension `[times[i+1] - times[i] for i in range(len-1)]`. -/
def interArrivalIntervals : List ℚ → List ℚ
  | a :: b :: rest => (b - a) :: interArrivalIntervals (b :: rest)
  | _ => []

/-- Embeds `avg_inter_arrival_time` property, with both guards of the source. -/
def NetworkFlow.avgInterArrivalTime (f : NetworkFlow) : ℚ :=
  if f.packet_times.length < 2 then 0
  else
    let intervals := interArrivalIntervals f.packet_times
    if intervals = [] then 0
    else intervals.sum / (intervals.length : ℚ)

/-- The dictionary produced by `NetworkFlow.to_dict` (the ISO-8601
    formatting of the start timestamp is elided: the raw start time is
    kept in the `timestamp` field). -/
structure FlowRecord where
  src_ip : String
  dst_ip : String
  src_port : ℕ
  dst_port : ℕ
  protocol : String
  flow_duration : ℚ
  total_fwd_packets : ℕ
  total_bwd_packets : ℕ
  total_fwd_bytes : ℕ
  total_bwd_bytes : ℕ
  total_packets : ℕ
  total_bytes : ℕ
  packet_inter_arrival_time : ℚ
  timestamp : ℚ
deriving DecidableEq

/-- Embeds `NetworkFlow.to_dict`. -/
def NetworkFlow.toDict (f : NetworkFlow) : FlowRecord :=
  { src_ip := f.src_ip
    dst_ip := f.dst_ip
    src_port := f.src_port
    dst_port := f.dst_port
    protocol := f.protocol
    flow_duration := f.duration
    total_fwd_packets := f.fwd_packets
    total_bwd_packets := f.bwd_packets
    total_fwd_bytes := f.fwd_bytes
    total_bwd_bytes := f.bwd_bytes
    total_packets := f.totalPackets
    total_bytes := f.totalBytes
    packet_inter_arrival_time := f.avgInterArrivalTime
    timestamp := f.start_time }

/-- Embeds `PacketCapture` state (interface name, lock and running flag are
    concurrency plumbing with no data content and are elided). -/
structure PacketCapture where
  flow_timeout : ℚ
  flows : List (String × NetworkFlow) := []
  completed_flows : List FlowRecord := []
deriving DecidableEq

/-- Embeds `PacketCapture.__init__`. -/
def mkPacketCapture (flow_timeout : ℚ) : PacketCapture :=
  { flow_timeout := flow_timeout }

/-- Embeds `_get_flow_key`. -/
def getFlowKey (src_ip dst_ip : String) (src_port dst_port : ℕ)
    (protocol : String) : String :=
  if src_ip < dst_ip then
    src_ip ++ ":" ++ toString src_port ++ "-" ++
      dst_ip ++ ":" ++ toString dst_port ++ "-" ++ protocol
  else
    dst_ip ++ ":" ++ toString dst_port ++ "-" ++
      src_ip ++ ":" ++ toString src_port ++ "-" ++ protocol

/-- Embeds `_is_forward_direction`. -/
def isForwardDirection (f : NetworkFlow) (src_ip : String) (src_port : ℕ) :
    Bool :=
  f.src_ip == src_ip && f.src_port == src_port

/-- An already-parsed packet observation, as consumed by
    `_process_packet` after the scapy layer extraction. -/
structure PacketEvent where
  src_ip : String
  dst_ip : String
  src_port : ℕ
  dst_port : ℕ
  protocol : String
  packet_size : ℕ
  time : ℚ
deriving DecidableEq

/-- The flow key computed for one event. -/
def eventKey (e : PacketEvent) : String :=
  getFlowKey e.src_ip e.dst_ip e.src_port e.dst_port e.protocol

/-- Embeds `_process_packet` on an already-parsed event: get-or-create the flow,
    classify the direction against the stored record, update it. -/
def processPacket (cap : PacketCapture) (e : PacketEvent) : PacketCapture :=
  let flow_key := eventKey e
  match dictGet cap.flows flow_key with
  | none =>
      let f := mkNetworkFlow e.src_ip e.dst_ip e.src_port e.dst_port
        e.protocol e.time
      let f := f.update e.packet_size
        (isForwardDirection f e.src_ip e.src_port) e.time
      { cap with flows := dictSet cap.flows flow_key f }
  | some f =>
      let f := f.update e.packet_size
        (isForwardDirection f e.src_ip e.src_port) e.time
      { cap with flows := dictSet cap.flows flow_key f }

/-- Embeds `_cleanup_expired_flows` at sweep time `current_time`: flows whose
    inactivity strictly exceeds the timeout move, in map order, to the
    completed buffer and leave the live map. -/
def cleanupExpiredFlows (cap : PacketCapture) (current_time : ℚ) :
    PacketCapture :=
  let isExpired := fun (kv : String × NetworkFlow) =>
    decide (cap.flow_timeout < current_time - kv.2.last_packet_time)
  { cap with
      flows := cap.flows.filter (fun kv => !isExpired kv)
      completed_flows :=
        cap.completed_flows ++
          (cap.flows.filter isExpired).map (fun kv => kv.2.toDict) }

/-- Embeds `get_completed_flows`: snapshot of the completed buffer, cleared in
    the same critical section when `clear` is set. -/
def getCompletedFlows (cap : PacketCapture) (clear : Bool) :
    List FlowRecord × PacketCapture :=
  (cap.completed_flows, if clear then { cap with completed_flows := [] } else cap)

/- ## Association-list lemmas -/

theorem dictGet_dictSet {α : Type} (l : List (String × α)) (k q : String)
    (v : α) :
    dictGet (dictSet l k v) q = if k = q then some v else dictGet l q := by
  induction l with
  | nil => simp [dictGet, dictSet]
  | cons hd tl ih =>
      obtain ⟨a, w⟩ := hd
      simp only [dictSet]
      by_cases hak : a = k
      · subst hak
        by_cases haq : a = q <;> simp [dictGet, haq]
      · simp only [if_neg hak]
        by_cases haq : a = q
        · subst haq
          have hka : k ≠ a := fun h => hak h.symm
          simp [dictGet, hka]
        · simp [dictGet, haq, ih]

theorem dictGet_dictSet_self {α : Type} (l : List (String × α)) (k : String)
    (v : α) : dictGet (dictSet l k v) k = some v := by
  simp [dictGet_dictSet]

theorem applyScoreDecayFactor_devices (M : TrustScoreManager) (f : ℚ)
    (q : String) :
    dictGet (applyScoreDecayFactor M f).devices q =
      (dictGet M.devices q).map (fun d0 => updateOverallScore M
        { d0 with
            behavioral_score := decayComponent f d0.behavioral_score
            reputation_score := decayComponent f d0.reputation_score }) := by
  suffices h : ∀ (l : List (String × DeviceScore)),
      dictGet (l.map (fun kv => (kv.1, updateOverallScore M
        { kv.2 with
            behavioral_score := decayComponent f kv.2.behavioral_score
            reputation_score := decayComponent f kv.2.reputation_score }))) q =
      (dictGet l q).map (fun d0 => updateOverallScore M
        { d0 with
            behavioral_score := decayComponent f d0.behavioral_score
            reputation_score := decayComponent f d0.reputation_score }) by
    exact h M.devices
  intro l
  induction l with
  | nil => simp [dictGet]
  | cons hd tl ih =>
      obtain ⟨a, w⟩ := hd
      by_cases haq : a = q <;> simp [dictGet, haq, ih]

/- ## C1: flow-key derivation -/

/-- C1: the flow-key derivation is NOT direction-independent for every
    pair of address strings: when the two addresses are equal and the
    ports differ, the two directions of the same conversation produce
    different keys, contradicting the source's own comment
    "Ensure bidirectional flows use same key". -/
theorem c1_flow_key_diverges_on_equal_addrs :
    getFlowKey "10.0.0.1" "10.0.0.1" 1 2 "TCP" ≠
      getFlowKey "10.0.0.1" "10.0.0.1" 2 1 "TCP" := by
  simp [getFlowKey]
  decide

/- ## C4: vulnerability update -/

/-- C4: `update_vulnerability_score` replaces the stored port list
    wholesale and sets the score to `max 20 (100 - min (15·len) 80)`, so
    the score never drops below 20 and an empty scan after a 6-port scan
    restores it to exactly 100. -/
theorem c4_vulnerability_wholesale_update :
    (∀ (M : TrustScoreManager) (ip : String) (ports : List ℕ),
      ∃ d, dictGet (updateVulnerabilityScore M ip ports).devices ip = some d ∧
        d.vulnerable_ports = ports ∧
        d.vulnerability_score =
          max 20 (100 - min ((ports.length : ℚ) * 15) 80) ∧
        20 ≤ d.vulnerability_score) ∧
    (∀ (M : TrustScoreManager) (ip : String),
      ∃ d, dictGet (updateVulnerabilityScore
          (updateVulnerabilityScore M ip [21, 22, 23, 25, 80, 443]) ip
          []).devices ip = some d ∧
        d.vulnerability_score = 100) := by
  constructor
  · intro M ip ports
    simp only [updateVulnerabilityScore]
    refine ⟨_, dictGet_dictSet_self _ _ _, ?_, ?_, ?_⟩
    · simp [updateOverallScore]
    · simp [updateOverallScore]
    · simp only [updateOverallScore]
      exact le_max_left _ _
  · intro M ip
    simp only [updateVulnerabilityScore]
    refine ⟨_, dictGet_dictSet_self _ _ _, ?_⟩
    simp [updateOverallScore]
    norm_num

/- ## C5: constructor validation -/

/-- C5 counterexample: constructing the manager with a negative
    `decay_rate` does NOT fail — the constructor returns a manager. -/
theorem c5_counterexample_negative_decay_accepted :
    ((-1 : ℚ) < 0) ∧
      (mkTrustScoreManager (1/2) (3/10) (1/5) (-1)).isOk = true := by
  constructor
  · norm_num
  · norm_num [mkTrustScoreManager, Except.isOk, Except.toBool]

/-- C5 (amended): construction fails exactly when the weights sum to
    zero (the `ZeroDivisionError` raised while normalizing); the
    `decay_rate` argument is never validated, so a negative decay rate is
    accepted. -/
theorem c5_construction_fails_iff_zero_weight_sum
    (b v r dr : ℚ) :
    (mkTrustScoreManager b v r dr).isOk = true ↔ b + v + r ≠ 0 := by
  by_cases h : b + v + r = 0 <;>
    simp [mkTrustScoreManager, h, Except.isOk, Except.toBool]

/- ## C8: draining the completed buffer -/

/-- C8: `get_completed_flows` with `clear` returns the whole completed
    buffer and empties it: a second call returns the empty list, and the
    two calls together return exactly the original buffer (nothing is
    duplicated or lost). -/
theorem c8_drain_twice (cap : PacketCapture) :
    (getCompletedFlows cap true).1 = cap.completed_flows ∧
    (getCompletedFlows ((getCompletedFlows cap true).2) true).1 = [] ∧
    (getCompletedFlows cap true).1 ++
      (getCompletedFlows ((getCompletedFlows cap true).2) true).1 =
        cap.completed_flows := by
  simp [getCompletedFlows]

/- ## C10: inter-arrival average on short flows -/

/-- C10: with fewer than two recorded packet timestamps the mean
    inter-arrival time is exactly 0, both as the property value and as
    the `packet_inter_arrival_time` field of the completed record. -/
theorem c10_inter_arrival_guard (f : NetworkFlow)
    (h : f.packet_times.length < 2) :
    f.avgInterArrivalTime = 0 ∧ f.toDict.packet_inter_arrival_time = 0 := by
  have h1 : f.avgInterArrivalTime = 0 := by
    unfold NetworkFlow.avgInterArrivalTime
    rw [if_pos h]
  exact ⟨h1, by simp [NetworkFlow.toDict, h1]⟩

/-- C10 witness: a concrete one-packet flow. -/
theorem c10_witness :
    ((NetworkFlow.update (mkNetworkFlow "10.0.0.1" "10.0.0.2" 5 80 "TCP" 0)
        100 true 0).packet_times.length < 2) ∧
    ((NetworkFlow.update (mkNetworkFlow "10.0.0.1" "10.0.0.2" 5 80 "TCP" 0)
        100 true 0).avgInterArrivalTime = 0 ∧
      (NetworkFlow.update (mkNetworkFlow "10.0.0.1" "10.0.0.2" 5 80 "TCP" 0)
        100 true 0).toDict.packet_inter_arrival_time = 0) :=
  ⟨by decide, c10_inter_arrival_guard _ (by decide)⟩

/- ## C9: whitelist override eroded by a later behavioral update -/

/-- C9: after `whitelist_device(ip)` followed by
    `update_behavioral_score(ip, 1.0)` the device is still flagged
    whitelisted while its behavioral score has been lowered to 50 — the
    override is not re-asserted by later mutating operations. -/
theorem c9_whitelist_not_reasserted (M : TrustScoreManager) (ip : String) :
    ∃ d, dictGet (updateBehavioralScore (whitelistDevice M ip) ip 1).devices
        ip = some d ∧
      d.is_whitelisted = true ∧ d.behavioral_score = 50 := by
  simp only [updateBehavioralScore, whitelistDevice, getOrCreateDevice]
  simp only [dictGet_dictSet_self, Option.getD_some]
  refine ⟨_, rfl, ?_, ?_⟩
  · simp [updateOverallScore]
  · simp [updateOverallScore]
    norm_num

/- ## C2: the composite trust score never drifts from the formula -/

/-- Every stored device's composite equals the weighted component sum. -/
def TrustInv (M : TrustScoreManager) : Prop :=
  ∀ ip d, dictGet M.devices ip = some d →
    d.trust_score =
      M.behavioral_weight * d.behavioral_score +
      M.vulnerability_weight * d.vulnerability_score +
      M.reputation_weight * d.reputation_score

theorem updateOverallScore_trust (M : TrustScoreManager) (d : DeviceScore) :
    (updateOverallScore M d).trust_score =
      M.behavioral_weight * (updateOverallScore M d).behavioral_score +
      M.vulnerability_weight * (updateOverallScore M d).vulnerability_score +
      M.reputation_weight * (updateOverallScore M d).reputation_score := by
  simp [updateOverallScore]

theorem trustInv_dictSet (M : TrustScoreManager) (ip0 : String)
    (d0 : DeviceScore) (hM : TrustInv M) :
    TrustInv { M with devices := dictSet M.devices ip0 (updateOverallScore M d0) } := by
  intro ip d hd
  simp only at hd ⊢
  rw [dictGet_dictSet] at hd
  split at hd
  · cases hd
    exact updateOverallScore_trust M d0
  · exact hM ip d hd

theorem trustInv_decayFactor (M : TrustScoreManager) (f : ℚ)
    (_hM : TrustInv M) : TrustInv (applyScoreDecayFactor M f) := by
  intro ip d hd
  rw [applyScoreDecayFactor_devices] at hd
  obtain ⟨d0, hd0, rfl⟩ := Option.map_eq_some'.mp hd
  exact updateOverallScore_trust M _

theorem trustInv_runOp (M : TrustScoreManager) (op : TrustOp)
    (hM : TrustInv M) : TrustInv (runOp M op) := by
  cases op with
  | behavioral ip0 a => exact trustInv_dictSet M ip0 _ hM
  | vulnerability ip0 ps => exact trustInv_dictSet M ip0 _ hM
  | reputation ip0 b => exact trustInv_dictSet M ip0 _ hM
  | decay h => exact trustInv_decayFactor M _ hM
  | whitelist ip0 => exact trustInv_dictSet M ip0 _ hM
  | blacklist ip0 => exact trustInv_dictSet M ip0 _ hM

theorem trustInv_runOps (M : TrustScoreManager) (ops : List TrustOp)
    (hM : TrustInv M) : TrustInv (runOps M ops) := by
  induction ops generalizing M with
  | nil => exact hM
  | cons op ops ih => exact ih _ (trustInv_runOp M op hM)

/-- C2: starting from a fresh manager with any stored weights, after any
    sequence of the six mutating operations every stored device satisfies
    `trust = w_b·behavioral + w_v·vulnerability + w_r·reputation`. -/
theorem c2_composite_never_drifts (b v r dr : ℚ) (ops : List TrustOp) :
    TrustInv (runOps
      { behavioral_weight := b, vulnerability_weight := v,
        reputation_weight := r, decay_rate := dr, devices := [] } ops) := by
  apply trustInv_runOps
  intro ip d hd
  simp [dictGet] at hd

/-- C2 witness: the invariant instantiated on a concrete run. -/
theorem c2_witness :
    TrustInv (runOps
      { behavioral_weight := 1/2, vulnerability_weight := 3/10,
        reputation_weight := 1/5, decay_rate := 19/20, devices := [] }
      [TrustOp.behavioral "10.0.0.7" (3/10), TrustOp.vulnerability
        "10.0.0.7" [22, 23], TrustOp.decay 1, TrustOp.reputation
        "10.0.0.8" true, TrustOp.whitelist "10.0.0.9"]) :=
  c2_composite_never_drifts (1/2) (3/10) (1/5) (19/20) _

/- ## C3: score ranges -/

/-- A score lying in the interval [0, 100]. -/
def ScoreInRange (x : ℚ) : Prop := 0 ≤ x ∧ x ≤ 100

/-- All four stored scores of a device lie in [0, 100]. -/
def DeviceInRange (d : DeviceScore) : Prop :=
  ScoreInRange d.behavioral_score ∧ ScoreInRange d.vulnerability_score ∧
  ScoreInRange d.reputation_score ∧ ScoreInRange d.trust_score

/-- Every stored device has all four scores in [0, 100]. -/
def ScoreInv (M : TrustScoreManager) : Prop :=
  ∀ ip d, dictGet M.devices ip = some d → DeviceInRange d

/-- Nonnegative weights summing to 1 (what the constructor produces from
    nonnegative inputs) and a decay rate in [0, 1]. -/
def ValidConfig (M : TrustScoreManager) : Prop :=
  0 ≤ M.behavioral_weight ∧ 0 ≤ M.vulnerability_weight ∧
  0 ≤ M.reputation_weight ∧
  M.behavioral_weight + M.vulnerability_weight + M.reputation_weight = 1 ∧
  0 ≤ M.decay_rate ∧ M.decay_rate ≤ 1

/-- The inputs under which the [0, 100] range is preserved: anomaly
    scores fed to `update_behavioral_score` must be nonnegative. -/
def ValidOp : TrustOp → Prop
  | .behavioral _ a => 0 ≤ a
  | _ => True

theorem weighted_sum_in_range (wb wv wr x y z : ℚ) (hwb : 0 ≤ wb)
    (hwv : 0 ≤ wv) (hwr : 0 ≤ wr) (hsum : wb + wv + wr = 1)
    (hx : ScoreInRange x) (hy : ScoreInRange y) (hz : ScoreInRange z) :
    ScoreInRange (wb * x + wv * y + wr * z) := by
  obtain ⟨hx0, hx1⟩ := hx
  obtain ⟨hy0, hy1⟩ := hy
  obtain ⟨hz0, hz1⟩ := hz
  constructor
  · exact add_nonneg (add_nonneg (mul_nonneg hwb hx0) (mul_nonneg hwv hy0))
      (mul_nonneg hwr hz0)
  · have h1 := mul_le_mul_of_nonneg_left hx1 hwb
    have h2 := mul_le_mul_of_nonneg_left hy1 hwv
    have h3 := mul_le_mul_of_nonneg_left hz1 hwr
    linarith

theorem deviceInRange_updateOverall (M : TrustScoreManager) (d : DeviceScore)
    (hW : ValidConfig M) (hb : ScoreInRange d.behavioral_score)
    (hv : ScoreInRange d.vulnerability_score)
    (hr : ScoreInRange d.reputation_score) :
    DeviceInRange (updateOverallScore M d) := by
  obtain ⟨hwb, hwv, hwr, hsum, -, -⟩ := hW
  refine ⟨?_, ?_, ?_, ?_⟩
  · simpa [updateOverallScore] using hb
  · simpa [updateOverallScore] using hv
  · simpa [updateOverallScore] using hr
  · simp only [updateOverallScore]
    exact weighted_sum_in_range _ _ _ _ _ _ hwb hwv hwr hsum hb hv hr

theorem getOrCreateDevice_range (M : TrustScoreManager) (ip : String)
    (hM : ScoreInv M) :
    ScoreInRange (getOrCreateDevice M ip).behavioral_score ∧
    ScoreInRange (getOrCreateDevice M ip).vulnerability_score ∧
    ScoreInRange (getOrCreateDevice M ip).reputation_score := by
  unfold getOrCreateDevice
  cases h : dictGet M.devices ip with
  | none =>
      simp only [Option.getD_none]
      refine ⟨⟨?_, ?_⟩, ⟨?_, ?_⟩, ⟨?_, ?_⟩⟩ <;> norm_num
  | some dd =>
      simp only [Option.getD_some]
      obtain ⟨h1, h2, h3, -⟩ := hM ip dd h
      exact ⟨h1, h2, h3⟩

theorem penalty_step_range (b p : ℚ) (hp : 0 ≤ p) (hb : ScoreInRange b) :
    ScoreInRange (max 0 (b - p)) :=
  ⟨le_max_left _ _, max_le (by norm_num) (by linarith [hb.2])⟩

theorem vulnerability_value_range (pen : ℚ) (hpen : 0 ≤ pen) :
    ScoreInRange (max 20 (100 - pen)) := by
  constructor
  · exact le_trans (by norm_num) (le_max_left _ _)
  · exact max_le (by norm_num) (by linarith)

theorem reputation_gain_range (r : ℚ) (hr : ScoreInRange r) :
    ScoreInRange (min 100 (r + 5)) :=
  ⟨le_min (by norm_num) (by linarith [hr.1]), min_le_left _ _⟩

theorem decayComponent_range (f c : ℚ) (_hf0 : 0 ≤ f) (hf1 : f ≤ 1)
    (hc : ScoreInRange c) : ScoreInRange (decayComponent f c) := by
  unfold decayComponent
  split
  · constructor
    · refine le_min (by norm_num) ?_
      have h1 : 0 ≤ (100 - c) * (1 - f) :=
        mul_nonneg (by linarith [hc.2]) (by linarith)
      linarith [hc.1]
    · exact min_le_left _ _
  · exact hc

theorem scoreInv_dictSet (M : TrustScoreManager) (ip0 : String)
    (d0 : DeviceScore) (hW : ValidConfig M) (hM : ScoreInv M)
    (hb : ScoreInRange d0.behavioral_score)
    (hv : ScoreInRange d0.vulnerability_score)
    (hr : ScoreInRange d0.reputation_score) :
    ScoreInv { M with devices := dictSet M.devices ip0 (updateOverallScore M d0) } := by
  intro ip d hd
  simp only at hd
  rw [dictGet_dictSet] at hd
  split at hd
  · cases hd
    exact deviceInRange_updateOverall M d0 hW hb hv hr
  · exact hM ip d hd

theorem scoreInv_runOp (M : TrustScoreManager) (op : TrustOp)
    (hW : ValidConfig M) (hop : ValidOp op) (hM : ScoreInv M) :
    ScoreInv (runOp M op) := by
  cases op with
  | behavioral ip0 a =>
      have ha : 0 ≤ a := hop
      obtain ⟨hgb, hgv, hgr⟩ := getOrCreateDevice_range M ip0 hM
      refine scoreInv_dictSet M ip0 _ hW hM ?_ ?_ ?_
      · exact penalty_step_range _ _
          (le_min (mul_nonneg ha (by norm_num)) (by norm_num)) hgb
      · exact hgv
      · exact hgr
  | vulnerability ip0 ps =>
      obtain ⟨hgb, hgv, hgr⟩ := getOrCreateDevice_range M ip0 hM
      refine scoreInv_dictSet M ip0 _ hW hM ?_ ?_ ?_
      · exact hgb
      · exact vulnerability_value_range _
          (le_min (by positivity) (by norm_num))
      · exact hgr
  | reputation ip0 mal =>
      obtain ⟨hgb, hgv, hgr⟩ := getOrCreateDevice_range M ip0 hM
      cases mal with
      | true =>
          refine scoreInv_dictSet M ip0 _ hW hM ?_ ?_ ?_
          · exact hgb
          · exact hgv
          · exact penalty_step_range _ _ (by norm_num) hgr
      | false =>
          refine scoreInv_dictSet M ip0 _ hW hM ?_ ?_ ?_
          · exact hgb
          · exact hgv
          · exact reputation_gain_range _ hgr
  | decay h =>
      intro ip d hd
      rw [show runOp M (.decay h) = applyScoreDecayFactor M (M.decay_rate ^ h)
          from rfl, applyScoreDecayFactor_devices] at hd
      obtain ⟨d0, hd0, rfl⟩ := Option.map_eq_some'.mp hd
      obtain ⟨h1, h2, h3, -⟩ := hM ip d0 hd0
      have hf0 : 0 ≤ M.decay_rate ^ h := pow_nonneg hW.2.2.2.2.1 h
      have hf1 : M.decay_rate ^ h ≤ 1 :=
        pow_le_one₀ hW.2.2.2.2.1 hW.2.2.2.2.2
      exact deviceInRange_updateOverall M _ hW
        (decayComponent_range _ _ hf0 hf1 h1) h2
        (decayComponent_range _ _ hf0 hf1 h3)
  | whitelist ip0 =>
      refine scoreInv_dictSet M ip0 _ hW hM ?_ ?_ ?_ <;>
        exact ⟨by norm_num, by norm_num⟩
  | blacklist ip0 =>
      refine scoreInv_dictSet M ip0 _ hW hM ?_ ?_ ?_ <;>
        exact ⟨by norm_num, by norm_num⟩

theorem runOp_config (M : TrustScoreManager) (op : TrustOp) :
    (runOp M op).behavioral_weight = M.behavioral_weight ∧
    (runOp M op).vulnerability_weight = M.vulnerability_weight ∧
    (runOp M op).reputation_weight = M.reputation_weight ∧
    (runOp M op).decay_rate = M.decay_rate := by
  cases op <;> simp [runOp, updateBehavioralScore, updateVulnerabilityScore,
    updateReputationScore, applyScoreDecay, applyScoreDecayFactor,
    whitelistDevice, blacklistDevice]

theorem validConfig_runOp (M : TrustScoreManager) (op : TrustOp)
    (hW : ValidConfig M) : ValidConfig (runOp M op) := by
  obtain ⟨h1, h2, h3, h4⟩ := runOp_config M op
  unfold ValidConfig at hW ⊢
  rw [h1, h2, h3, h4]
  exact hW

theorem scoreInv_runOps (M : TrustScoreManager) (ops : List TrustOp)
    (hW : ValidConfig M) (hops : ∀ op ∈ ops, ValidOp op) (hM : ScoreInv M) :
    ScoreInv (runOps M ops) := by
  induction ops generalizing M with
  | nil => exact hM
  | cons op ops ih =>
      exact ih (runOp M op) (validConfig_runOp M op hW)
        (fun o ho => hops o (by simp [ho]))
        (scoreInv_runOp M op hW (hops op (by simp)) hM)

/-- C3 (amended): provided the stored weights are nonnegative and sum to
    1, the decay rate lies in [0, 1], and every anomaly score passed to
    `update_behavioral_score` is nonnegative, all four stored scores of
    every device remain in [0, 100] under any operation sequence.  (The
    unamended claim fails: a negative anomaly score drives a score above
    100, see the counterexample.) -/
theorem c3_scores_in_range (M : TrustScoreManager) (ops : List TrustOp)
    (hW : ValidConfig M) (hops : ∀ op ∈ ops, ValidOp op) (hM : ScoreInv M) :
    ScoreInv (runOps M ops) :=
  scoreInv_runOps M ops hW hops hM

/-- C3 counterexample: from a fresh manager with the default (normalized)
    weights, a single `update_behavioral_score` call with anomaly score
    −1 leaves a stored behavioral score of 200, outside [0, 100]. -/
theorem c3_counterexample :
    (dictGet (updateBehavioralScore
      { behavioral_weight := 1/2, vulnerability_weight := 3/10,
        reputation_weight := 1/5, decay_rate := 19/20, devices := [] }
      "10.0.0.5" (-1)).devices "10.0.0.5").map DeviceScore.behavioral_score
        = some 200 ∧ ¬ ((200 : ℚ) ≤ 100) := by
  constructor
  · simp [updateBehavioralScore, getOrCreateDevice, updateOverallScore,
      dictGet, dictSet, min_def, max_def]
    norm_num
  · norm_num

/-- C3 witness: a concrete valid configuration, operation list and the
    resulting range invariant. -/
theorem c3_witness :
    ValidConfig
      { behavioral_weight := 1/2, vulnerability_weight := 3/10,
        reputation_weight := 1/5, decay_rate := 19/20, devices := [] } ∧
    (∀ op ∈ [TrustOp.behavioral "10.0.0.7" (1/2),
        TrustOp.vulnerability "10.0.0.7" [22, 23, 445],
        TrustOp.decay 2, TrustOp.reputation "10.0.0.8" true,
        TrustOp.whitelist "10.0.0.9", TrustOp.blacklist "10.0.0.10"],
      ValidOp op) ∧
    ScoreInv (runOps
      { behavioral_weight := 1/2, vulnerability_weight := 3/10,
        reputation_weight := 1/5, decay_rate := 19/20, devices := [] }
      [TrustOp.behavioral "10.0.0.7" (1/2),
        TrustOp.vulnerability "10.0.0.7" [22, 23, 445],
        TrustOp.decay 2, TrustOp.reputation "10.0.0.8" true,
        TrustOp.whitelist "10.0.0.9", TrustOp.blacklist "10.0.0.10"]) := by
  refine ⟨?_, ?_, ?_⟩
  · refine ⟨?_, ?_, ?_, ?_, ?_, ?_⟩ <;> norm_num
  · intro op hop
    fin_cases hop <;> simp [ValidOp]
  · apply c3_scores_in_range
    · refine ⟨?_, ?_, ?_, ?_, ?_, ?_⟩ <;> norm_num
    · intro op hop
      fin_cases hop <;> simp [ValidOp]
    · intro ip d hd
      simp [dictGet] at hd

/- ## C6: the decay formula -/

theorem decayComponent_eq_min (f c : ℚ) (hc : c ≤ 100) :
    decayComponent f c = min 100 (c + (100 - c) * (1 - f)) := by
  unfold decayComponent
  split
  · rfl
  · next h =>
      have hc100 : c = 100 := le_antisymm hc (not_lt.mp h)
      rw [hc100]
      norm_num

/-- C6 (amended): for every stored device whose behavioral and
    reputation scores do not exceed 100, `apply_score_decay` over `h`
    whole hours rewrites both components to
    `min 100 (c + (100 − c)·(1 − decay_rate^h))` independently, leaves
    the vulnerability score and the stored vulnerable-ports list
    unchanged, and recomputes the composite.  (The unamended claim — for
    every device — fails on reachable devices with a score above 100,
    see the counterexample.) -/
theorem c6_decay_formula (M : TrustScoreManager) (h : ℕ) (ip : String)
    (d : DeviceScore) (hd : dictGet M.devices ip = some d)
    (hb : d.behavioral_score ≤ 100) (hr : d.reputation_score ≤ 100) :
    ∃ d2, dictGet (applyScoreDecay M h).devices ip = some d2 ∧
      d2.behavioral_score = min 100 (d.behavioral_score +
        (100 - d.behavioral_score) * (1 - M.decay_rate ^ h)) ∧
      d2.reputation_score = min 100 (d.reputation_score +
        (100 - d.reputation_score) * (1 - M.decay_rate ^ h)) ∧
      d2.vulnerability_score = d.vulnerability_score ∧
      d2.vulnerable_ports = d.vulnerable_ports ∧
      d2.trust_score = M.behavioral_weight * d2.behavioral_score +
        M.vulnerability_weight * d2.vulnerability_score +
        M.reputation_weight * d2.reputation_score := by
  have hmap := applyScoreDecayFactor_devices M (M.decay_rate ^ h) ip
  rw [hd] at hmap
  refine ⟨updateOverallScore M
    { d with
        behavioral_score := decayComponent (M.decay_rate ^ h) d.behavioral_score
        reputation_score := decayComponent (M.decay_rate ^ h) d.reputation_score },
    ?_, ?_, ?_, ?_, ?_, ?_⟩
  · show dictGet (applyScoreDecayFactor M (M.decay_rate ^ h)).devices ip = _
    rw [hmap]
    rfl
  · simp only [updateOverallScore]
    exact decayComponent_eq_min _ _ hb
  · simp only [updateOverallScore]
    exact decayComponent_eq_min _ _ hr
  · simp [updateOverallScore]
  · simp [updateOverallScore]
  · exact updateOverallScore_trust M _

/-- C6 counterexample: a reachable device with behavioral score 200
    (after an anomaly update with score −1) is left untouched by
    `apply_score_decay`, while the claimed formula would yield 100. -/
theorem c6_counterexample :
    (dictGet (applyScoreDecay (updateBehavioralScore
      { behavioral_weight := 1/2, vulnerability_weight := 3/10,
        reputation_weight := 1/5, decay_rate := 19/20, devices := [] }
      "10.0.0.5" (-1)) 1).devices "10.0.0.5").map DeviceScore.behavioral_score
        = some 200 ∧
    min 100 ((200 : ℚ) + (100 - 200) * (1 - (19/20 : ℚ) ^ (1 : ℕ))) = 100 ∧
    ((200 : ℚ) ≠ 100) := by
  refine ⟨?_, ?_, ?_⟩
  · simp [applyScoreDecay, applyScoreDecayFactor, updateBehavioralScore,
      getOrCreateDevice, updateOverallScore, decayComponent,
      dictGet, dictSet, min_def, max_def]
    norm_num
  · norm_num
  · norm_num

/-- The concrete device of the C6 witness scenario: behavioral score 0. -/
def c6DemoDevice : DeviceScore :=
  { device_ip := "10.0.0.6", behavioral_score := 0 }

/-- The concrete manager of the C6 witness scenario: default normalized
    weights, decay rate 0.95, one stored device. -/
def c6DemoManager : TrustScoreManager :=
  { behavioral_weight := 1/2, vulnerability_weight := 3/10,
    reputation_weight := 1/5, decay_rate := 19/20,
    devices := [("10.0.0.6", c6DemoDevice)] }

/-- C6 witness: the spec scenario — decay_rate 0.95, one hour, a device
    with behavioral score 0 — recovers to exactly 5. -/
theorem c6_witness :
    (dictGet c6DemoManager.devices "10.0.0.6" = some c6DemoDevice ∧
      c6DemoDevice.behavioral_score ≤ 100 ∧
      c6DemoDevice.reputation_score ≤ 100) ∧
    (∃ d2, dictGet (applyScoreDecay c6DemoManager 1).devices "10.0.0.6"
        = some d2 ∧
      d2.behavioral_score = min 100 (c6DemoDevice.behavioral_score +
        (100 - c6DemoDevice.behavioral_score) *
          (1 - c6DemoManager.decay_rate ^ (1 : ℕ))) ∧
      d2.reputation_score = min 100 (c6DemoDevice.reputation_score +
        (100 - c6DemoDevice.reputation_score) *
          (1 - c6DemoManager.decay_rate ^ (1 : ℕ))) ∧
      d2.vulnerability_score = c6DemoDevice.vulnerability_score ∧
      d2.vulnerable_ports = c6DemoDevice.vulnerable_ports ∧
      d2.trust_score = c6DemoManager.behavioral_weight * d2.behavioral_score +
        c6DemoManager.vulnerability_weight * d2.vulnerability_score +
        c6DemoManager.reputation_weight * d2.reputation_score) ∧
    min 100 (c6DemoDevice.behavioral_score +
      (100 - c6DemoDevice.behavioral_score) *
        (1 - c6DemoManager.decay_rate ^ (1 : ℕ))) = 5 :=
  ⟨⟨by simp [c6DemoManager, dictGet], by norm_num [c6DemoDevice],
      by norm_num [c6DemoDevice]⟩,
    c6_decay_formula c6DemoManager 1 "10.0.0.6" c6DemoDevice
      (by simp [c6DemoManager, dictGet]) (by norm_num [c6DemoDevice])
      (by norm_num [c6DemoDevice]),
    by norm_num [c6DemoDevice, c6DemoManager]⟩

/- ## C7: flow aggregation and expiry -/

theorem NetworkFlow.update_totalPackets (f : NetworkFlow) (s : ℕ) (b : Bool)
    (t : ℚ) : (f.update s b t).totalPackets = f.totalPackets + 1 := by
  cases b <;> simp [NetworkFlow.update, NetworkFlow.totalPackets] <;> omega

theorem NetworkFlow.update_totalBytes (f : NetworkFlow) (s : ℕ) (b : Bool)
    (t : ℚ) : (f.update s b t).totalBytes = f.totalBytes + s := by
  cases b <;> simp [NetworkFlow.update, NetworkFlow.totalBytes] <;> omega

theorem NetworkFlow.update_last (f : NetworkFlow) (s : ℕ) (b : Bool) (t : ℚ) :
    (f.update s b t).last_packet_time = t := by
  cases b <;> simp [NetworkFlow.update]

theorem processPacket_single (cap : PacketCapture) (k : String)
    (F : NetworkFlow) (e : PacketEvent) (hflows : cap.flows = [(k, F)])
    (he : eventKey e = k) :
    processPacket cap e = { cap with flows := [(k, F.update e.packet_size
      (isForwardDirection F e.src_ip e.src_port) e.time)] } := by
  unfold processPacket
  rw [he, hflows]
  simp [dictGet, dictSet]

theorem foldl_processPacket_single (es : List PacketEvent) :
    ∀ (cap : PacketCapture) (k : String) (F : NetworkFlow),
    (∀ e ∈ es, eventKey e = k) → cap.flows = [(k, F)] →
    ∃ F2, (es.foldl processPacket cap).flows = [(k, F2)] ∧
      (es.foldl processPacket cap).completed_flows = cap.completed_flows ∧
      (es.foldl processPacket cap).flow_timeout = cap.flow_timeout ∧
      F2.totalPackets = F.totalPackets + es.length ∧
      F2.totalBytes = F.totalBytes + (es.map PacketEvent.packet_size).sum ∧
      F2.last_packet_time =
        (es.getLast?.map PacketEvent.time).getD F.last_packet_time := by
  induction es with
  | nil =>
      intro cap k F _ hflows
      exact ⟨F, hflows, rfl, rfl, by simp, by simp, by simp⟩
  | cons e es ih =>
      intro cap k F hkeys hflows
      have he : eventKey e = k := hkeys e (List.mem_cons_self e es)
      have hstep := processPacket_single cap k F e hflows he
      rw [List.foldl_cons, hstep]
      obtain ⟨F2, h1, h2, h3, h4, h5, h6⟩ :=
        ih { cap with flows := [(k, F.update e.packet_size
            (isForwardDirection F e.src_ip e.src_port) e.time)] } k
          (F.update e.packet_size
            (isForwardDirection F e.src_ip e.src_port) e.time)
          (fun e2 he2 => hkeys e2 (List.mem_cons_of_mem e he2)) rfl
      refine ⟨F2, h1, h2, h3, ?_, ?_, ?_⟩
      · rw [h4, NetworkFlow.update_totalPackets]
        simp only [List.length_cons]
        omega
      · rw [h5, NetworkFlow.update_totalBytes]
        simp only [List.map_cons, List.sum_cons]
        omega
      · cases es with
        | nil =>
            simp only [List.getLast?_nil, Option.map_none', Option.getD_none]
              at h6
            rw [NetworkFlow.update_last] at h6
            simpa using h6
        | cons e2 es2 =>
            rw [List.getLast?_cons_cons]
            exact h6

/-- C7: starting from a fresh tracker, after any nonempty event sequence
    that maps to a single flow key, a sweep strictly later than the last
    event time plus the timeout produces exactly one completed record —
    with `total_packets` = the number of events and `total_bytes` = the
    sum of their sizes — and empties the live map; a sweep at or before
    that bound completes nothing and leaves the live map unchanged. -/
theorem c7_flow_lifecycle (timeout t : ℚ) (events : List PacketEvent)
    (k : String) (elast : PacketEvent)
    (hkeys : ∀ e ∈ events, eventKey e = k)
    (hlast : events.getLast? = some elast) :
    (timeout < t - elast.time →
      ∃ rec, (cleanupExpiredFlows (events.foldl processPacket
          (mkPacketCapture timeout)) t).completed_flows = [rec] ∧
        rec.total_packets = events.length ∧
        rec.total_bytes = (events.map PacketEvent.packet_size).sum ∧
        (cleanupExpiredFlows (events.foldl processPacket
          (mkPacketCapture timeout)) t).flows = []) ∧
    (¬ timeout < t - elast.time →
      (cleanupExpiredFlows (events.foldl processPacket
        (mkPacketCapture timeout)) t).completed_flows = [] ∧
      (cleanupExpiredFlows (events.foldl processPacket
        (mkPacketCapture timeout)) t).flows =
        (events.foldl processPacket (mkPacketCapture timeout)).flows) := by
  cases events with
  | nil => simp at hlast
  | cons e es =>
      have he : eventKey e = k := hkeys e (List.mem_cons_self e es)
      have hstep1 : processPacket (mkPacketCapture timeout) e =
          { flow_timeout := timeout,
            flows := [(k, (mkNetworkFlow e.src_ip e.dst_ip e.src_port
              e.dst_port e.protocol e.time).update e.packet_size
              (isForwardDirection (mkNetworkFlow e.src_ip e.dst_ip e.src_port
                e.dst_port e.protocol e.time) e.src_ip e.src_port) e.time)],
            completed_flows := [] } := by
        unfold processPacket mkPacketCapture
        simp [dictGet, dictSet, he]
      rw [List.foldl_cons, hstep1]
      obtain ⟨F2, h1, h2, h3, h4, h5, h6⟩ :=
        foldl_processPacket_single es
          { flow_timeout := timeout,
            flows := [(k, (mkNetworkFlow e.src_ip e.dst_ip e.src_port
              e.dst_port e.protocol e.time).update e.packet_size
              (isForwardDirection (mkNetworkFlow e.src_ip e.dst_ip e.src_port
                e.dst_port e.protocol e.time) e.src_ip e.src_port) e.time)],
            completed_flows := [] } k
          ((mkNetworkFlow e.src_ip e.dst_ip e.src_port
              e.dst_port e.protocol e.time).update e.packet_size
              (isForwardDirection (mkNetworkFlow e.src_ip e.dst_ip e.src_port
                e.dst_port e.protocol e.time) e.src_ip e.src_port) e.time)
          (fun e2 he2 => hkeys e2 (List.mem_cons_of_mem e he2)) rfl
      have htp : F2.totalPackets = (e :: es).length := by
        rw [h4, NetworkFlow.update_totalPackets]
        have hz : (mkNetworkFlow e.src_ip e.dst_ip e.src_port e.dst_port
            e.protocol e.time).totalPackets = 0 := rfl
        rw [hz]
        simp only [List.length_cons]
        omega
      have htb : F2.totalBytes = ((e :: es).map PacketEvent.packet_size).sum := by
        rw [h5, NetworkFlow.update_totalBytes]
        have hz : (mkNetworkFlow e.src_ip e.dst_ip e.src_port e.dst_port
            e.protocol e.time).totalBytes = 0 := rfl
        rw [hz]
        simp only [List.map_cons, List.sum_cons]
        omega
      have hlast2 : F2.last_packet_time = elast.time := by
        cases es with
        | nil =>
            simp only [List.getLast?_singleton, Option.some.injEq] at hlast
            subst hlast
            simp only [List.getLast?_nil, Option.map_none', Option.getD_none]
              at h6
            rw [NetworkFlow.update_last] at h6
            exact h6
        | cons e2 es2 =>
            rw [List.getLast?_cons_cons] at hlast
            rw [h6, hlast]
            simp
      constructor
      · intro hlt
        have hdec : decide (timeout < t - F2.last_packet_time) = true := by
          rw [hlast2]
          exact decide_eq_true hlt
        refine ⟨F2.toDict, ?_, ?_, ?_, ?_⟩
        · simp only [cleanupExpiredFlows, h1, h2, h3]
          simp [List.filter, hdec]
        · simp only [NetworkFlow.toDict]
          exact htp
        · simp only [NetworkFlow.toDict]
          exact htb
        · simp only [cleanupExpiredFlows, h1, h3]
          simp [List.filter, hdec]
      · intro hnlt
        have hdec : decide (timeout < t - F2.last_packet_time) = false := by
          rw [hlast2]
          exact decide_eq_false hnlt
        constructor
        · simp only [cleanupExpiredFlows, h1, h2, h3]
          simp [List.filter, hdec]
        · simp only [cleanupExpiredFlows, h1, h3]
          simp [List.filter, hdec]

/-- First event of the C7 witness scenario (t = 0, 100 bytes). -/
def c7DemoE1 : PacketEvent :=
  { src_ip := "10.0.0.1", dst_ip := "10.0.0.2", src_port := 5,
    dst_port := 80, protocol := "TCP", packet_size := 100, time := 0 }

/-- Second event of the C7 witness scenario: the reply direction
    (t = 100, 40 bytes). -/
def c7DemoE2 : PacketEvent :=
  { src_ip := "10.0.0.2", dst_ip := "10.0.0.1", src_port := 80,
    dst_port := 5, protocol := "TCP", packet_size := 40, time := 100 }

/-- The canonical key both witness events map to. -/
def c7DemoKey : String := "10.0.0.1:5-10.0.0.2:80-TCP"

/-- C7 witness: the spec scenario — timeout 120, events at t = 0 and
    t = 100 into one bidirectional flow, sweep at t = 221. -/
theorem c7_witness :
    (∀ e ∈ [c7DemoE1, c7DemoE2], eventKey e = c7DemoKey) ∧
    ([c7DemoE1, c7DemoE2].getLast? = some c7DemoE2) ∧
    (((120 : ℚ) < 221 - c7DemoE2.time →
      ∃ rec, (cleanupExpiredFlows ([c7DemoE1, c7DemoE2].foldl processPacket
          (mkPacketCapture 120)) 221).completed_flows = [rec] ∧
        rec.total_packets = [c7DemoE1, c7DemoE2].length ∧
        rec.total_bytes =
          ([c7DemoE1, c7DemoE2].map PacketEvent.packet_size).sum ∧
        (cleanupExpiredFlows ([c7DemoE1, c7DemoE2].foldl processPacket
          (mkPacketCapture 120)) 221).flows = []) ∧
    (¬ (120 : ℚ) < 221 - c7DemoE2.time →
      (cleanupExpiredFlows ([c7DemoE1, c7DemoE2].foldl processPacket
        (mkPacketCapture 120)) 221).completed_flows = [] ∧
      (cleanupExpiredFlows ([c7DemoE1, c7DemoE2].foldl processPacket
        (mkPacketCapture 120)) 221).flows =
        ([c7DemoE1, c7DemoE2].foldl processPacket
          (mkPacketCapture 120)).flows)) := by
  have hk : ∀ e ∈ [c7DemoE1, c7DemoE2], eventKey e = c7DemoKey := by
    intro e he
    fin_cases he <;> simp [eventKey, getFlowKey, c7DemoE1, c7DemoE2, c7DemoKey]
      <;> rfl
  have hl : [c7DemoE1, c7DemoE2].getLast? = some c7DemoE2 := rfl
  exact ⟨hk, hl,
    c7_flow_lifecycle 120 221 [c7DemoE1, c7DemoE2] c7DemoKey c7DemoE2 hk hl⟩

/- ## Additional concrete witnesses -/

/-- C4 witness: the vulnerability update evaluated on a concrete manager,
    a three-port scan, and the empty-after-six-ports scenario. -/
theorem c4_witness :
    (∃ d, dictGet (updateVulnerabilityScore
      { behavioral_weight := 1/2, vulnerability_weight := 3/10,
        reputation_weight := 1/5, decay_rate := 19/20, devices := [] }
      "10.0.0.4" [22, 23, 445]).devices "10.0.0.4" = some d ∧
        d.vulnerable_ports = [22, 23, 445] ∧
        d.vulnerability_score =
          max 20 (100 - min ((([22, 23, 445] : List ℕ).length : ℚ) * 15) 80) ∧
        20 ≤ d.vulnerability_score) ∧
    (∃ d, dictGet (updateVulnerabilityScore (updateVulnerabilityScore
      { behavioral_weight := 1/2, vulnerability_weight := 3/10,
        reputation_weight := 1/5, decay_rate := 19/20, devices := [] }
      "10.0.0.4" [21, 22, 23, 25, 80, 443]) "10.0.0.4" []).devices
        "10.0.0.4" = some d ∧ d.vulnerability_score = 100) :=
  ⟨c4_vulnerability_wholesale_update.1
      { behavioral_weight := 1/2, vulnerability_weight := 3/10,
        reputation_weight := 1/5, decay_rate := 19/20, devices := [] }
      "10.0.0.4" [22, 23, 445],
    c4_vulnerability_wholesale_update.2
      { behavioral_weight := 1/2, vulnerability_weight := 3/10,
        reputation_weight := 1/5, decay_rate := 19/20, devices := [] }
      "10.0.0.4"⟩

/-- C5 witness: the amended criterion at two concrete inputs — all-zero
    weights (construction fails) and the default weights (construction
    succeeds). -/
theorem c5_witness :
    ((mkTrustScoreManager 0 0 0 (19/20)).isOk = true ↔
      (0 : ℚ) + 0 + 0 ≠ 0) ∧
    ((mkTrustScoreManager (1/2) (3/10) (1/5) (19/20)).isOk = true ↔
      (1/2 : ℚ) + 3/10 + 1/5 ≠ 0) :=
  ⟨c5_construction_fails_iff_zero_weight_sum 0 0 0 (19/20),
    c5_construction_fails_iff_zero_weight_sum (1/2) (3/10) (1/5) (19/20)⟩

/-- C8 witness: draining twice from a concrete capture state with one
    completed record. -/
theorem c8_witness :
    (getCompletedFlows
      { flow_timeout := 120, flows := [],
        completed_flows := [(mkNetworkFlow "10.0.0.1" "10.0.0.2" 1 2
          "TCP" 0).toDict] } true).1 =
      [(mkNetworkFlow "10.0.0.1" "10.0.0.2" 1 2 "TCP" 0).toDict] ∧
    (getCompletedFlows ((getCompletedFlows
      { flow_timeout := 120, flows := [],
        completed_flows := [(mkNetworkFlow "10.0.0.1" "10.0.0.2" 1 2
          "TCP" 0).toDict] } true).2) true).1 = [] ∧
    (getCompletedFlows
      { flow_timeout := 120, flows := [],
        completed_flows := [(mkNetworkFlow "10.0.0.1" "10.0.0.2" 1 2
          "TCP" 0).toDict] } true).1 ++
      (getCompletedFlows ((getCompletedFlows
        { flow_timeout := 120, flows := [],
          completed_flows := [(mkNetworkFlow "10.0.0.1" "10.0.0.2" 1 2
            "TCP" 0).toDict] } true).2) true).1 =
      [(mkNetworkFlow "10.0.0.1" "10.0.0.2" 1 2 "TCP" 0).toDict] :=
  c8_drain_twice
    { flow_timeout := 120, flows := [],
      completed_flows := [(mkNetworkFlow "10.0.0.1" "10.0.0.2" 1 2
        "TCP" 0).toDict] }

/-- C9 witness: the whitelist-then-anomaly sequence on a concrete
    manager. -/
theorem c9_witness :
    ∃ d, dictGet (updateBehavioralScore (whitelistDevice
      { behavioral_weight := 1/2, vulnerability_weight := 3/10,
        reputation_weight := 1/5, decay_rate := 19/20, devices := [] }
      "10.0.0.3") "10.0.0.3" 1).devices "10.0.0.3" = some d ∧
      d.is_whitelisted = true ∧ d.behavioral_score = 50 :=
  c9_whitelist_not_reasserted
    { behavioral_weight := 1/2, vulnerability_weight := 3/10,
      reputation_weight := 1/5, decay_rate := 19/20, devices := [] }
    "10.0.0.3"
